import Mathlib

/-!
# Verification of `analyze_frame_dumps.py` (GifBolt frame-dump analyzer)

Shallow embedding of the analyzer in `src/analyze_frame_dumps.py`.  The script
reads metadata files `gifbolt_frame_*.txt` from a scratch directory, parses
`Key: Value` lines, aggregates records into a dict keyed by frame index, and
prints a textual report (sequence analysis, range/gap check, double-buffering
pattern).

The embedding models the body of `analyze_dumps` as a pure function from
 * the resolved temp-directory string,
 * the discovered (already sorted) list of metadata files, each a name plus
   either its text content or an I/O error message (a file whose `open`/`read`
   raises is modelled by the error case), and
 * the number of discovered raw pixel files (the script only uses `len`),
to the list of printed lines.  Directory discovery itself (env lookup + glob)
is outside the modelled core, matching the script's only use of it: producing
the inputs above.
-/

namespace GifBolt

/-- Characters stripped by Python `str.strip()` (the ASCII whitespace set). -/
def isPySpace (c : Char) : Bool :=
  c = ' ' || c = '\t' || c = '\n' || c = '\r' || c = '\x0b' || c = '\x0c'

/-- Python `str.strip()`: drop whitespace from both ends. -/
def pyStrip (s : List Char) : List Char :=
  ((s.dropWhile isPySpace).reverse.dropWhile isPySpace).reverse

/-- Numeric value of a list of ASCII digits. -/
def digitsVal (s : List Char) : Nat :=
  s.foldl (fun acc c => acc * 10 + (c.toNat - 48)) 0

/-- Nonempty and all ASCII decimal digits. -/
def allDigits (s : List Char) : Bool :=
  !s.isEmpty && s.all (fun c => '0' ≤ c && c ≤ '9')

/-- Models Python `int()` applied to an already-stripped string: an optional
sign followed by one or more ASCII decimal digits; anything else raises
`ValueError`, modelled as `none`.  (Digit-grouping underscores and non-ASCII
digits accepted by CPython are not modelled; no claim depends on them.) -/
def pyInt : List Char → Option Int
  | '-' :: rest => if allDigits rest then some (-(digitsVal rest : Int)) else none
  | '+' :: rest => if allDigits rest then some (digitsVal rest : Int) else none
  | s => if allDigits s then some (digitsVal s : Int) else none

/-- Python `content.split('\n')` on the character list of the content. -/
def splitLines : List Char → List (List Char)
  | [] => [[]]
  | c :: rest =>
    if c = '\n' then [] :: splitLines rest
    else
      match splitLines rest with
      | [] => [[c]]
      | t :: ts => (c :: t) :: ts

/-- Python `line.split(': ')`: split on every non-overlapping occurrence of
the two-character separator `': '`, scanning left to right. -/
def splitColonSpace : List Char → List (List Char)
  | [] => [[]]
  | [c] => [[c]]
  | c :: d :: rest =>
    if c = ':' ∧ d = ' ' then
      [] :: splitColonSpace rest
    else
      match splitColonSpace (d :: rest) with
      | [] => [[c]]
      | t :: ts => (c :: t) :: ts

/-- The two exceptions the per-line parsing code can raise:
`line.split(': ')[1]` raises `IndexError` when the separator is absent, and
`int(...)` raises `ValueError` on a non-integer string. -/
inductive ParseErr where
  | indexError
  | valueError
deriving DecidableEq, Repr

/-- The `str(e)` text printed for each modelled exception. -/
def ParseErr.message : ParseErr → String
  | .indexError => "list index out of range"
  | .valueError => "invalid literal for int() with base 10"

/-- What one iteration of the line loop does to the local variables
`frame_num` / `displaying_alt`. -/
inductive LineEffect where
  | setFrame (n : Int)
  | setAlt (b : Bool)
  | skip
deriving DecidableEq, Repr

/-- Source lines 32–36: one line of the metadata file either raises or
updates `frame_num` (lines starting `Frame:`) or `displaying_alt` (lines
starting `DisplayingAlt:`; the value is the boolean `strip(v) == 'true'`).
Any other line is ignored. -/
def lineStep (line : List Char) : Except ParseErr LineEffect :=
  if ("Frame:".toList).isPrefixOf line then
    match (splitColonSpace line)[1]? with
    | none => .error .indexError
    | some v =>
      match pyInt (pyStrip v) with
      | none => .error .valueError
      | some n => .ok (.setFrame n)
  else if ("DisplayingAlt:".toList).isPrefixOf line then
    match (splitColonSpace line)[1]? with
    | none => .error .indexError
    | some v => .ok (.setAlt (pyStrip v == "true".toList))
  else
    .ok .skip

/-- Apply a line's effect to the loop state `(frame_num, displaying_alt)`. -/
def applyEffect (st : Option Int × Option Bool) : LineEffect → Option Int × Option Bool
  | .setFrame n => (some n, st.2)
  | .setAlt b => (st.1, some b)
  | .skip => st

/-- One iteration of the loop over `content.split('\n')`. -/
def parseLine (st : Option Int × Option Bool) (line : List Char) :
    Except ParseErr (Option Int × Option Bool) :=
  (lineStep line).map (applyEffect st)

/-- The whole parsing loop over one file's content, starting from
`frame_num = None`, `displaying_alt = None`; the first raised exception
aborts the file. -/
def parseContent (content : String) : Except ParseErr (Option Int × Option Bool) :=
  (splitLines content.toList).foldlM parseLine (none, none)

/-- One entry of the `frames` dict: the raw metadata text, the parsed
`displaying_alt` value (`none` models Python `None`), and the source file
(kept by name; the script stores the `Path` and prints its `.name`). -/
structure FrameRecord where
  meta : String
  displaying_alt : Option Bool
  file : String
deriving DecidableEq, Repr

/-- The `frames` dict: a finite map from frame index to record, modelled as
an association list whose key order mirrors dict insertion order. -/
abbrev FrameMap := List (Int × FrameRecord)

/-- Python dict assignment `frames[frame_num] = record`: overwrite in place
if the key exists, append otherwise. -/
def setFrame (m : FrameMap) (k : Int) (v : FrameRecord) : FrameMap :=
  if m.any (fun p => p.1 == k) then
    m.map (fun p => if p.1 == k then (k, v) else p)
  else m ++ [(k, v)]

/-- One discovered metadata file: its name together with its readable text
content (`.ok`) or the message of the I/O exception raised while opening or
reading it (`.error`). -/
structure DumpFile where
  name : String
  content : Except String String
deriving Repr

/-- Python `f"{n:04d}"`: pad with zeros after the sign to a total width 4. -/
def pad4 (n : Int) : String :=
  let sign := if n < 0 then "-" else ""
  let ds := toString n.natAbs
  sign ++ String.mk (List.replicate (4 - (sign.length + ds.length)) '0') ++ ds

/-- Python `str` of the `displaying_alt` variable (`None`/`True`/`False`). -/
def pyOptBoolStr : Option Bool → String
  | none => "None"
  | some true => "True"
  | some false => "False"

/-- Source lines 25–46: process one metadata file against the accumulated
`(frames, printed lines)` state.  An I/O failure or a raised parse exception
prints `Error parsing {name}: {e}`; a parse that yields no frame number is
skipped without output; otherwise the record is stored and the per-frame
summary line is printed. -/
def processFile (acc : FrameMap × List String) (f : DumpFile) : FrameMap × List String :=
  match f.content with
  | .error e => (acc.1, acc.2 ++ ["Error parsing " ++ f.name ++ ": " ++ e])
  | .ok content =>
    match parseContent content with
    | .error e => (acc.1, acc.2 ++ ["Error parsing " ++ f.name ++ ": " ++ e.message])
    | .ok (none, _) => acc
    | .ok (some n, alt) =>
        (setFrame acc.1 n { meta := content, displaying_alt := alt, file := f.name },
         acc.2 ++ ["Frame " ++ pad4 n ++ ": DisplayingAlt=" ++ pyOptBoolStr alt])

/-- The registry built by the metadata loop. -/
def registryOf (files : List DumpFile) : FrameMap :=
  (files.foldl processFile ([], [])).1

/-- The per-file lines printed by the metadata loop. -/
def parseLinesOf (files : List DumpFile) : List String :=
  (files.foldl processFile ([], [])).2

/-- Python `max()` over a nonempty list (`none` on the empty list). -/
def listMax : List Int → Option Int
  | [] => none
  | x :: xs => some (xs.foldl max x)

/-- `sorted(frames.keys())`. -/
def sortedKeys (m : FrameMap) : List Int :=
  List.insertionSort (· ≤ ·) (m.map Prod.fst)

/-- Source lines 55–58: collect each adjacent pair of the sorted index list
whose difference is not exactly 1. -/
def gapsOf : List Int → List (Int × Int)
  | a :: b :: rest => (if b - a != 1 then [(a, b)] else []) ++ gapsOf (b :: rest)
  | _ => []

/-- Source line 63: the printed line for one gap, with its missing count. -/
def gapLine (g : Int × Int) : String :=
  "   Gap between frame " ++ toString g.1 ++ " and " ++ toString g.2 ++
    " (missing " ++ toString (g.2 - g.1 - 1) ++ " frames)"

/-- Source line 72: the surface label, `'Alt' if alt else 'Primary '`
(Python truthiness: both `False` and `None` select `'Primary '`). -/
def renderAlt : Option Bool → String
  | some true => "Alt"
  | _ => "Primary "

/-- Source line 72: one line of the double-buffering pattern listing. -/
def altLine (m : FrameMap) (k : Int) : String :=
  "Frame " ++ pad4 k ++ ": Surface " ++
    renderAlt (((m.lookup k).getD { meta := "", displaying_alt := none, file := "" }).displaying_alt) ++
    " being displayed"

/-- Source lines 50–72: the lines printed under `=== Frame Sequence Check ===`.
When the registry is empty the whole block is skipped (nothing is printed). -/
def sequenceCheckLines (frames : FrameMap) : List String :=
  if frames.isEmpty then []
  else
    let frame_nums := sortedKeys frames
    let mx := (listMax frame_nums).getD 0
    let gaps := gapsOf frame_nums
    ["Frame 0 to " ++ toString mx] ++
    (if gaps.isEmpty then ["✓ No gaps in frames 0 to " ++ toString mx]
     else ("⚠️  Found " ++ toString gaps.length ++ " gaps in frame sequence:") :: gaps.map gapLine) ++
    ["", "=== Double-Buffering Pattern ==="] ++
    (frame_nums.take 10).map (altLine frames)

/-- The body of `analyze_dumps` as a pure function to the printed lines. -/
def analyze_dumps (temp_dir : String) (frame_files : List DumpFile) (raw_count : Nat) :
    List String :=
  ["Temp directory: " ++ temp_dir,
   "Found " ++ toString frame_files.length ++ " metadata files",
   "Found " ++ toString raw_count ++ " raw pixel files",
   ""] ++
  if frame_files.isEmpty then
    ["No frame dumps found. Make sure the app ran with the new DLL."]
  else
    ["=== Frame Sequence Analysis ==="] ++ parseLinesOf frame_files ++
    ["", "=== Frame Sequence Check ==="] ++
    sequenceCheckLines (registryOf frame_files)

/-- Modelled from the spec (§4.3): the count of frame-index collisions the
spec says the final report must surface — the number of successfully parsed
records whose `frame_index` was already present in the registry at insertion
time.  The script computes no such quantity; this definition exists only to
state the collision-count claim. -/
def specCollisionCount (files : List DumpFile) : Nat :=
  (files.foldl
    (fun (acc : FrameMap × Nat) f =>
      match f.content with
      | .error _ => acc
      | .ok content =>
        match parseContent content with
        | .error _ => acc
        | .ok (none, _) => acc
        | .ok (some n, alt) =>
            (setFrame acc.1 n { meta := content, displaying_alt := alt, file := f.name },
             acc.2 + (if acc.1.any (fun p => p.1 == n) then 1 else 0)))
    ([], 0)).2

/-- Decidable equality for `Except`, used to evaluate parse results on
concrete inputs. -/
instance {ε α : Type} [DecidableEq ε] [DecidableEq α] : DecidableEq (Except ε α) := fun a b =>
  match a, b with
  | .ok x, .ok y =>
    if h : x = y then isTrue (by rw [h]) else isFalse (fun hc => h (Except.ok.inj hc))
  | .error x, .error y =>
    if h : x = y then isTrue (by rw [h]) else isFalse (fun hc => h (Except.error.inj hc))
  | .ok _, .error _ => isFalse (fun hc => Except.noConfusion hc)
  | .error _, .ok _ => isFalse (fun hc => Except.noConfusion hc)

/-- Whether the parse of one file's content raised an exception. -/
def parseFailed (content : String) : Bool :=
  match parseContent content with
  | .error _ => true
  | .ok _ => false

/-- The `str(e)` text of the exception raised while parsing a file
(the empty string when the parse succeeded). -/
def errText (content : String) : String :=
  match parseContent content with
  | .error e => e.message
  | .ok _ => ""

/-! ## Helper lemmas -/

lemma gapsOf_eq_filter (l : List Int) :
    gapsOf l = (l.zip l.tail).filter (fun p => p.2 - p.1 != 1) := by
  induction l with
  | nil => rfl
  | cons a tail ih =>
    cases tail with
    | nil => rfl
    | cons b rest =>
      rw [gapsOf, ih]
      simp only [List.tail_cons, List.zip_cons_cons, List.filter_cons]
      cases h : (b - a != 1) <;> simp [h]

/-! ## C1: gap scan -/

/-- C1: the analyzer's gap scan over a sorted index sequence emits exactly the
adjacent pairs whose difference is not 1 (each printed with missing count
`after - before - 1`) and nothing else; on the index set `{0,1,2,5,6,9}` it
yields exactly the gaps `(2,5)` and `(6,9)`, both missing 2; and a sequence
whose adjacent differences are all 1 yields no gaps. -/
theorem gaps_scan_characterization :
    (∀ l : List Int, gapsOf l = (l.zip l.tail).filter (fun p => p.2 - p.1 != 1)) ∧
    sortedKeys (registryOf
      [⟨"gifbolt_frame_0000.txt", .ok "Frame: 0\n"⟩,
       ⟨"gifbolt_frame_0001.txt", .ok "Frame: 1\n"⟩,
       ⟨"gifbolt_frame_0002.txt", .ok "Frame: 2\n"⟩,
       ⟨"gifbolt_frame_0005.txt", .ok "Frame: 5\n"⟩,
       ⟨"gifbolt_frame_0006.txt", .ok "Frame: 6\n"⟩,
       ⟨"gifbolt_frame_0009.txt", .ok "Frame: 9\n"⟩]) = [0, 1, 2, 5, 6, 9] ∧
    gapsOf [0, 1, 2, 5, 6, 9] = [(2, 5), (6, 9)] ∧
    gapLine (2, 5) = "   Gap between frame 2 and 5 (missing 2 frames)" ∧
    gapLine (6, 9) = "   Gap between frame 6 and 9 (missing 2 frames)" ∧
    (∀ l : List Int, (∀ p ∈ l.zip l.tail, p.2 - p.1 = 1) → gapsOf l = []) :=
  ⟨gapsOf_eq_filter, by decide, by decide, by decide, by decide,
   fun l h => by
     rw [gapsOf_eq_filter]
     refine List.filter_eq_nil_iff.mpr fun p hp => ?_
     simp [h p hp]⟩

/-- Witness for C1's no-gap clause at the concrete gapless sequence `[3, 4]`. -/
theorem gaps_scan_characterization_witness : gapsOf [3, 4] = [] :=
  gaps_scan_characterization.2.2.2.2.2 [3, 4] (by decide)

lemma base_le_foldl_max : ∀ (xs : List Int) (x : Int), x ≤ xs.foldl max x
  | [], _ => le_refl _
  | y :: ys, x => by
    rw [List.foldl_cons]
    exact le_trans (le_max_left x y) (base_le_foldl_max ys (max x y))

lemma foldl_max_mem : ∀ (xs : List Int) (x : Int), xs.foldl max x ∈ x :: xs
  | [], _ => by simp
  | y :: ys, x => by
    rw [List.foldl_cons]
    rcases List.mem_cons.mp (foldl_max_mem ys (max x y)) with h1 | h1
    · rw [h1]
      rcases max_choice x y with hm | hm <;> simp [hm]
    · simp [h1]

lemma le_foldl_max : ∀ (xs : List Int) (x k : Int), k ∈ x :: xs → k ≤ xs.foldl max x
  | [], x, k, hk => by
    rw [List.foldl_nil]
    simp only [List.mem_singleton] at hk
    exact le_of_eq hk
  | y :: ys, x, k, hk => by
    rw [List.foldl_cons]
    rcases List.mem_cons.mp hk with h1 | h1
    · subst h1
      exact le_trans (le_max_left k y) (base_le_foldl_max ys (max k y))
    · rcases List.mem_cons.mp h1 with h2 | h2
      · subst h2
        exact le_trans (le_max_right x k) (base_le_foldl_max ys (max x k))
      · exact le_foldl_max ys (max x y) k (List.mem_cons_of_mem _ h2)

lemma sortedKeys_ne_nil (frames : FrameMap) (h : frames ≠ []) : sortedKeys frames ≠ [] := by
  intro he
  apply h
  have hlen := congrArg List.length he
  rw [sortedKeys, List.length_insertionSort, List.length_map, List.length_nil] at hlen
  exact List.length_eq_zero.mp hlen

/-! ## C2: range statement -/

/-- C2 counterexample: for the registry with indices `{5, 6}` (minimum 5) the
range statement is the literal `"Frame 0 to 6"`, not `"Frame 5 to 6"`: the
lower bound printed is the constant 0, not the minimum index present. -/
theorem range_min_counterexample :
    sortedKeys (registryOf
      [⟨"gifbolt_frame_0005.txt", .ok "Frame: 5\n"⟩,
       ⟨"gifbolt_frame_0006.txt", .ok "Frame: 6\n"⟩]) = [5, 6] ∧
    sequenceCheckLines (registryOf
      [⟨"gifbolt_frame_0005.txt", .ok "Frame: 5\n"⟩,
       ⟨"gifbolt_frame_0006.txt", .ok "Frame: 6\n"⟩]) =
      ["Frame 0 to 6", "✓ No gaps in frames 0 to 6", "",
       "=== Double-Buffering Pattern ===",
       "Frame 0005: Surface Primary  being displayed",
       "Frame 0006: Surface Primary  being displayed"] ∧
    ("Frame 0 to 6" : String) ≠ "Frame 5 to 6" :=
  ⟨by decide, by decide, by decide⟩

/-- C2 amended: for every non-empty registry the range statement reports the
literal 0 as the lower bound and the true maximum as the upper bound — its
first line is `"Frame 0 to " ++ max` where `max` is the maximum key present —
so it equals `[min, max]` only when the minimum index is 0. -/
theorem range_line_reports_literal_zero (frames : FrameMap) (h : frames ≠ []) :
    (listMax (sortedKeys frames)).getD 0 ∈ frames.map Prod.fst ∧
    (∀ k ∈ frames.map Prod.fst, k ≤ (listMax (sortedKeys frames)).getD 0) ∧
    (sequenceCheckLines frames).head? =
      some ("Frame 0 to " ++ toString ((listMax (sortedKeys frames)).getD 0)) := by
  obtain ⟨x, xs, hs⟩ : ∃ x xs, sortedKeys frames = x :: xs := by
    cases hsk : sortedKeys frames with
    | nil => exact absurd hsk (sortedKeys_ne_nil frames h)
    | cons x xs => exact ⟨x, xs, rfl⟩
  have hmax : (listMax (sortedKeys frames)).getD 0 = xs.foldl max x := by
    rw [hs]; rfl
  refine ⟨?_, ?_, ?_⟩
  · have hm : xs.foldl max x ∈ sortedKeys frames := hs ▸ foldl_max_mem xs x
    rw [hmax]
    rw [sortedKeys] at hm
    exact (List.mem_insertionSort _).mp hm
  · intro k hk
    have hk2 : k ∈ sortedKeys frames := by
      rw [sortedKeys]
      exact (List.mem_insertionSort _).mpr hk
    rw [hmax]
    exact le_foldl_max xs x k (hs ▸ hk2)
  · have hne : frames.isEmpty = false := by
      cases frames with
      | nil => exact absurd rfl h
      | cons p ps => rfl
    rw [sequenceCheckLines, if_neg (by simp [hne])]
    simp

/-- Witness for C2's amended claim on the registry with keys `{5, 6}`. -/
theorem range_line_reports_literal_zero_witness :
    (listMax (sortedKeys
        [((5 : Int), ⟨"Frame: 5\n", none, "gifbolt_frame_0005.txt"⟩),
         ((6 : Int), ⟨"Frame: 6\n", none, "gifbolt_frame_0006.txt"⟩)])).getD 0 ∈
      ([((5 : Int), ⟨"Frame: 5\n", none, "gifbolt_frame_0005.txt"⟩),
        ((6 : Int), ⟨"Frame: 6\n", none, "gifbolt_frame_0006.txt"⟩)] : FrameMap).map Prod.fst ∧
    (sequenceCheckLines
        [((5 : Int), ⟨"Frame: 5\n", none, "gifbolt_frame_0005.txt"⟩),
         ((6 : Int), ⟨"Frame: 6\n", none, "gifbolt_frame_0006.txt"⟩)]).head? =
      some ("Frame 0 to " ++ toString ((listMax (sortedKeys
        [((5 : Int), ⟨"Frame: 5\n", none, "gifbolt_frame_0005.txt"⟩),
         ((6 : Int), ⟨"Frame: 6\n", none, "gifbolt_frame_0006.txt"⟩)])).getD 0)) :=
  ⟨(range_line_reports_literal_zero _ (List.cons_ne_nil _ _)).1,
   (range_line_reports_literal_zero _ (List.cons_ne_nil _ _)).2.2⟩

/-! ## C6: duplicate frame indices -/

lemma lookup_map_overwrite (m : FrameMap) (k : Int) (v : FrameRecord) :
    (m.map (fun p => if p.1 == k then (k, v) else p)).lookup k =
      if m.any (fun p => p.1 == k) then some v else none := by
  induction m with
  | nil => rfl
  | cons p ps ih =>
    cases hp : (p.1 == k) with
    | true =>
      simp only [List.map_cons]
      rw [if_pos hp]
      simp [List.lookup, hp]
    | false =>
      simp only [List.map_cons]
      rw [if_neg (by simp [hp])]
      have hk : (k == p.1) = false :=
        beq_eq_false_iff_ne.mpr (Ne.symm (beq_eq_false_iff_ne.mp hp))
      simp only [List.lookup, hk, ih, List.any_cons, hp, Bool.false_or]

lemma lookup_append_new (m : FrameMap) (k : Int) (v : FrameRecord)
    (h : m.any (fun p => p.1 == k) = false) :
    (m ++ [(k, v)]).lookup k = some v := by
  induction m with
  | nil => simp [List.lookup]
  | cons p ps ih =>
    rw [List.any_cons, Bool.or_eq_false_iff] at h
    have hk : (k == p.1) = false :=
      beq_eq_false_iff_ne.mpr (Ne.symm (beq_eq_false_iff_ne.mp h.1))
    rw [List.cons_append, List.lookup, hk]
    exact ih h.2

lemma lookup_setFrame (m : FrameMap) (k : Int) (v : FrameRecord) :
    (setFrame m k v).lookup k = some v := by
  rw [setFrame]
  cases h : m.any (fun p => p.1 == k) with
  | true =>
    rw [if_pos rfl, lookup_map_overwrite, if_pos h]
  | false =>
    rw [if_neg (by simp)]
    exact lookup_append_new m k v h

/-- C6 counterexample: a run with exactly one frame-index collision (count 1)
keeps the last record for the duplicated index, but the final report surfaces
no collision count — the character `'1'` never occurs in any output line, so
no line can state the count, and no line mentions collisions at all. -/
theorem collision_count_not_surfaced_counterexample :
    specCollisionCount
      [⟨"gifbolt_frame_0003.txt", .ok "Frame: 3\nDisplayingAlt: true\n"⟩,
       ⟨"gifbolt_frame_0003b.txt", .ok "Frame: 3\nDisplayingAlt: false\n"⟩] = 1 ∧
    (registryOf
      [⟨"gifbolt_frame_0003.txt", .ok "Frame: 3\nDisplayingAlt: true\n"⟩,
       ⟨"gifbolt_frame_0003b.txt", .ok "Frame: 3\nDisplayingAlt: false\n"⟩]).lookup 3 =
      some ⟨"Frame: 3\nDisplayingAlt: false\n", some false, "gifbolt_frame_0003b.txt"⟩ ∧
    (∀ l ∈ analyze_dumps "T"
      [⟨"gifbolt_frame_0003.txt", .ok "Frame: 3\nDisplayingAlt: true\n"⟩,
       ⟨"gifbolt_frame_0003b.txt", .ok "Frame: 3\nDisplayingAlt: false\n"⟩] 0,
      '1' ∉ l.toList) ∧
    (∀ l ∈ analyze_dumps "T"
      [⟨"gifbolt_frame_0003.txt", .ok "Frame: 3\nDisplayingAlt: true\n"⟩,
       ⟨"gifbolt_frame_0003b.txt", .ok "Frame: 3\nDisplayingAlt: false\n"⟩] 0,
      ¬ ("collision".toList <:+: l.toList)) :=
  ⟨by decide, by decide, by decide, by decide⟩

/-- C6 amended: on a duplicated frame index the registry keeps the last
record seen (last-write-wins, proved for every map, key, and record), and the
final report surfaces no collision count: in a run with exactly one collision
the digit `'1'` appears in no output line. -/
theorem registry_last_write_wins :
    (∀ (m : FrameMap) (k : Int) (v : FrameRecord), (setFrame m k v).lookup k = some v) ∧
    (registryOf
      [⟨"gifbolt_frame_0004.txt", .ok "Frame: 4\nDisplayingAlt: true\n"⟩,
       ⟨"gifbolt_frame_0004b.txt", .ok "Frame: 4\nDisplayingAlt: false\n"⟩]).lookup 4 =
      some ⟨"Frame: 4\nDisplayingAlt: false\n", some false, "gifbolt_frame_0004b.txt"⟩ ∧
    specCollisionCount
      [⟨"gifbolt_frame_0004.txt", .ok "Frame: 4\nDisplayingAlt: true\n"⟩,
       ⟨"gifbolt_frame_0004b.txt", .ok "Frame: 4\nDisplayingAlt: false\n"⟩] = 1 ∧
    (∀ l ∈ analyze_dumps "T"
      [⟨"gifbolt_frame_0004.txt", .ok "Frame: 4\nDisplayingAlt: true\n"⟩,
       ⟨"gifbolt_frame_0004b.txt", .ok "Frame: 4\nDisplayingAlt: false\n"⟩] 0,
      '1' ∉ l.toList) :=
  ⟨lookup_setFrame, by decide, by decide, by decide⟩

/-! ## C3: DisplayingAlt tokens other than true/false -/

lemma scs_displayingAlt (v : List Char) :
    splitColonSpace ("DisplayingAlt: ".toList ++ v) =
      "DisplayingAlt".toList :: splitColonSpace v := rfl

lemma lineStep_displayingAlt (v : List Char) (hsep : splitColonSpace v = [v]) :
    lineStep ("DisplayingAlt: ".toList ++ v) =
      .ok (.setAlt (pyStrip v == "true".toList)) := by
  have h1 : ("Frame:".toList).isPrefixOf ("DisplayingAlt: ".toList ++ v) = false := rfl
  have h2 : ("DisplayingAlt:".toList).isPrefixOf ("DisplayingAlt: ".toList ++ v) = true := by
    induction v with
    | nil => rfl
    | cons c cs _ => rfl
  rw [lineStep, if_neg (by simp [h1]), if_pos h2, scs_displayingAlt, hsep]
  rfl

/-- C3 counterexample: the token `maybe` for `DisplayingAlt` is coerced by
`== 'true'` to the boolean `false` — not kept as a distinct unknown value —
and is rendered `"Primary "` in the alternation listing; `"Unknown"` appears
nowhere in the output. -/
theorem displaying_alt_unknown_counterexample :
    parseContent "Frame: 7\nDisplayingAlt: maybe\n" = .ok (some 7, some false) ∧
    (registryOf [⟨"gifbolt_frame_0007.txt", .ok "Frame: 7\nDisplayingAlt: maybe\n"⟩]).lookup 7 =
      some ⟨"Frame: 7\nDisplayingAlt: maybe\n", some false, "gifbolt_frame_0007.txt"⟩ ∧
    renderAlt (some false) = "Primary " ∧
    "Frame 0007: Surface Primary  being displayed" ∈
      analyze_dumps "T" [⟨"gifbolt_frame_0007.txt", .ok "Frame: 7\nDisplayingAlt: maybe\n"⟩] 0 ∧
    (∀ l ∈ analyze_dumps "T" [⟨"gifbolt_frame_0007.txt", .ok "Frame: 7\nDisplayingAlt: maybe\n"⟩] 0,
      ¬ ("Unknown".toList <:+: l.toList)) :=
  ⟨by decide, by decide, by decide, by decide, by decide⟩

/-- C3 amended: the parser compares the (stripped) `DisplayingAlt` value to
the literal `true` only: every other separator-free token — `maybe` and even
`false` included — parses to the boolean `false`; a record lacking the key
keeps `displaying_alt = None`; and the alternation listing renders `some
true` as "Alt" and both `some false` and `None` as the boolean-default label
"Primary " (no distinct rendering for unknown values exists). -/
theorem displaying_alt_token_coerced (st : Option Int × Option Bool) (v : List Char)
    (hsep : splitColonSpace v = [v]) (hne : pyStrip v ≠ "true".toList) :
    parseLine st ("DisplayingAlt: ".toList ++ v) = .ok (st.1, some false) ∧
    parseContent "Frame: 7\n" = .ok (some 7, none) ∧
    renderAlt none = "Primary " ∧ renderAlt (some false) = "Primary " ∧
    renderAlt (some true) = "Alt" := by
  refine ⟨?_, by decide, rfl, rfl, rfl⟩
  have h4 : (pyStrip v == "true".toList) = false := beq_eq_false_iff_ne.mpr hne
  rw [parseLine, lineStep_displayingAlt v hsep, h4]
  rfl

/-- Witness for C3's amended claim at the token `maybe`. -/
theorem displaying_alt_token_coerced_witness :
    parseLine (none, none) ("DisplayingAlt: ".toList ++ "maybe".toList) =
      .ok (none, some false) ∧
    parseContent "Frame: 7\n" = .ok (some 7, none) ∧
    renderAlt none = "Primary " ∧ renderAlt (some false) = "Primary " ∧
    renderAlt (some true) = "Alt" :=
  displaying_alt_token_coerced (none, none) "maybe".toList (by decide) (by decide)

/-! ## C4: files lacking a Frame key -/

/-- C4 counterexample: a readable metadata file with no `Frame` key at all
(`"DisplayingAlt: false\n"`) is excluded from the registry but **silently**:
the full output contains no parse-error line and never mentions the file,
while the other valid files of the run are still processed. -/
theorem missing_frame_silent_drop_counterexample :
    sortedKeys (registryOf
      [⟨"gifbolt_frame_0001.txt", .ok "Frame: 1\n"⟩,
       ⟨"gifbolt_frame_0002.txt", .ok "DisplayingAlt: false\n"⟩,
       ⟨"gifbolt_frame_0003.txt", .ok "Frame: 3\n"⟩]) = [1, 3] ∧
    analyze_dumps "T"
      [⟨"gifbolt_frame_0001.txt", .ok "Frame: 1\n"⟩,
       ⟨"gifbolt_frame_0002.txt", .ok "DisplayingAlt: false\n"⟩,
       ⟨"gifbolt_frame_0003.txt", .ok "Frame: 3\n"⟩] 0 =
      ["Temp directory: T", "Found 3 metadata files", "Found 0 raw pixel files", "",
       "=== Frame Sequence Analysis ===",
       "Frame 0001: DisplayingAlt=None", "Frame 0003: DisplayingAlt=None", "",
       "=== Frame Sequence Check ===",
       "Frame 0 to 3", "⚠️  Found 1 gaps in frame sequence:",
       "   Gap between frame 1 and 3 (missing 1 frames)", "",
       "=== Double-Buffering Pattern ===",
       "Frame 0001: Surface Primary  being displayed",
       "Frame 0003: Surface Primary  being displayed"] ∧
    (∀ l ∈ analyze_dumps "T"
      [⟨"gifbolt_frame_0001.txt", .ok "Frame: 1\n"⟩,
       ⟨"gifbolt_frame_0002.txt", .ok "DisplayingAlt: false\n"⟩,
       ⟨"gifbolt_frame_0003.txt", .ok "Frame: 3\n"⟩] 0,
      ¬ ("gifbolt_frame_0002".toList <:+: l.toList)) ∧
    (∀ l ∈ analyze_dumps "T"
      [⟨"gifbolt_frame_0001.txt", .ok "Frame: 1\n"⟩,
       ⟨"gifbolt_frame_0002.txt", .ok "DisplayingAlt: false\n"⟩,
       ⟨"gifbolt_frame_0003.txt", .ok "Frame: 3\n"⟩] 0,
      ¬ ("Error".toList <:+: l.toList)) :=
  ⟨by decide, by decide, by decide, by decide⟩

/-- C4 amended: a readable metadata file whose parse yields no frame number
is excluded from the registry but dropped silently — it changes neither the
registry nor the printed lines — and the fold over the remaining files
continues exactly as if the file were absent (other valid files are still
processed and inserted). -/
theorem missing_frame_excluded_but_silent (f : DumpFile) (content : String) (alt : Option Bool)
    (hc : f.content = .ok content) (hp : parseContent content = .ok (none, alt)) :
    (∀ acc : FrameMap × List String, processFile acc f = acc) ∧
    (∀ (pre post : List DumpFile) (init : FrameMap × List String),
      (pre ++ f :: post).foldl processFile init =
        post.foldl processFile (pre.foldl processFile init)) := by
  have h1 : ∀ acc : FrameMap × List String, processFile acc f = acc := by
    intro acc
    simp [processFile, hc, hp]
  exact ⟨h1, fun pre post init => by rw [List.foldl_append, List.foldl_cons, h1]⟩

/-- Witness for C4's amended claim at the keyless file between two valid
ones. -/
theorem missing_frame_excluded_but_silent_witness :
    processFile ([], []) ⟨"gifbolt_frame_0002.txt", .ok "DisplayingAlt: false\n"⟩ = ([], []) ∧
    (([⟨"gifbolt_frame_0001.txt", .ok "Frame: 1\n"⟩] : List DumpFile) ++
      (⟨"gifbolt_frame_0002.txt", .ok "DisplayingAlt: false\n"⟩ : DumpFile) ::
        [⟨"gifbolt_frame_0003.txt", .ok "Frame: 3\n"⟩]).foldl processFile ([], []) =
      ([⟨"gifbolt_frame_0003.txt", .ok "Frame: 3\n"⟩] : List DumpFile).foldl processFile
        (([⟨"gifbolt_frame_0001.txt", .ok "Frame: 1\n"⟩] : List DumpFile).foldl
          processFile ([], [])) :=
  ⟨(missing_frame_excluded_but_silent
      ⟨"gifbolt_frame_0002.txt", .ok "DisplayingAlt: false\n"⟩
      "DisplayingAlt: false\n" (some false) rfl rfl).1 ([], []),
   (missing_frame_excluded_but_silent
      ⟨"gifbolt_frame_0002.txt", .ok "DisplayingAlt: false\n"⟩
      "DisplayingAlt: false\n" (some false) rfl rfl).2
     [⟨"gifbolt_frame_0001.txt", .ok "Frame: 1\n"⟩]
     [⟨"gifbolt_frame_0003.txt", .ok "Frame: 3\n"⟩] ([], [])⟩

/-! ## C5: per-file I/O failures -/

/-- C5: an I/O failure on one file is reported as `Error parsing {name}: {e}`
with the offending file's name, leaves the registry untouched, does not abort
the fold — the remaining files are processed from the same state plus the one
error line — and the analysis sections are still produced for any non-empty
discovery. -/
theorem io_error_isolated (acc : FrameMap × List String) (f : DumpFile) (e : String)
    (pre post files : List DumpFile) (d : String) (r : Nat)
    (he : f.content = .error e) (hne : files ≠ []) :
    processFile acc f = (acc.1, acc.2 ++ ["Error parsing " ++ f.name ++ ": " ++ e]) ∧
    (pre ++ f :: post).foldl processFile acc =
      post.foldl processFile
        ((pre.foldl processFile acc).1,
         (pre.foldl processFile acc).2 ++ ["Error parsing " ++ f.name ++ ": " ++ e]) ∧
    "=== Frame Sequence Check ===" ∈ analyze_dumps d files r := by
  have h1 : ∀ a : FrameMap × List String,
      processFile a f = (a.1, a.2 ++ ["Error parsing " ++ f.name ++ ": " ++ e]) := by
    intro a
    simp [processFile, he]
  refine ⟨h1 acc, ?_, ?_⟩
  · rw [List.foldl_append, List.foldl_cons, h1]
  · cases files with
    | nil => exact absurd rfl hne
    | cons a l => simp [analyze_dumps]

/-- Witness for C5: one unreadable file between two valid files. -/
theorem io_error_isolated_witness :
    processFile ([], []) ⟨"gifbolt_frame_0002.txt", .error "Permission denied"⟩ =
      ([], ["Error parsing gifbolt_frame_0002.txt: Permission denied"]) ∧
    (([⟨"gifbolt_frame_0001.txt", .ok "Frame: 1\n"⟩] : List DumpFile) ++
      (⟨"gifbolt_frame_0002.txt", .error "Permission denied"⟩ : DumpFile) ::
        [⟨"gifbolt_frame_0003.txt", .ok "Frame: 3\n"⟩]).foldl processFile ([], []) =
      ([⟨"gifbolt_frame_0003.txt", .ok "Frame: 3\n"⟩] : List DumpFile).foldl processFile
        ((([⟨"gifbolt_frame_0001.txt", .ok "Frame: 1\n"⟩] : List DumpFile).foldl
            processFile ([], [])).1,
         (([⟨"gifbolt_frame_0001.txt", .ok "Frame: 1\n"⟩] : List DumpFile).foldl
            processFile ([], [])).2 ++
           ["Error parsing gifbolt_frame_0002.txt: Permission denied"]) ∧
    "=== Frame Sequence Check ===" ∈ analyze_dumps "T"
      [⟨"gifbolt_frame_0001.txt", .ok "Frame: 1\n"⟩,
       ⟨"gifbolt_frame_0002.txt", .error "Permission denied"⟩,
       ⟨"gifbolt_frame_0003.txt", .ok "Frame: 3\n"⟩] 0 :=
  io_error_isolated ([], []) ⟨"gifbolt_frame_0002.txt", .error "Permission denied"⟩
    "Permission denied"
    [⟨"gifbolt_frame_0001.txt", .ok "Frame: 1\n"⟩]
    [⟨"gifbolt_frame_0003.txt", .ok "Frame: 3\n"⟩]
    [⟨"gifbolt_frame_0001.txt", .ok "Frame: 1\n"⟩,
     ⟨"gifbolt_frame_0002.txt", .error "Permission denied"⟩,
     ⟨"gifbolt_frame_0003.txt", .ok "Frame: 3\n"⟩]
    "T" 0 rfl (List.cons_ne_nil _ _)

/-! ## C7: discovered files but empty registry -/

/-- C7 counterexample: a run that discovers one metadata file yet ends with
an empty registry prints the `=== Frame Sequence Check ===` header and then
nothing — there is no "no frames found" message; indeed no output line even
contains the word `frames`. -/
theorem empty_registry_counterexample :
    registryOf [⟨"gifbolt_frame_0000.txt", .ok "DisplayingAlt: false\n"⟩] = [] ∧
    analyze_dumps "T" [⟨"gifbolt_frame_0000.txt", .ok "DisplayingAlt: false\n"⟩] 0 =
      ["Temp directory: T", "Found 1 metadata files", "Found 0 raw pixel files", "",
       "=== Frame Sequence Analysis ===", "", "=== Frame Sequence Check ==="] ∧
    (∀ l ∈ analyze_dumps "T" [⟨"gifbolt_frame_0000.txt", .ok "DisplayingAlt: false\n"⟩] 0,
      ¬ ("frames".toList <:+: l.toList)) :=
  ⟨by decide, by decide, by decide⟩

/-- C7 amended: when metadata files were discovered but the registry ends up
empty, the run stops after printing the section headers and the per-file
lines — the sequence-check section is silently empty, and no "no frames
found" message is produced. -/
theorem empty_registry_silent_skip (d : String) (r : Nat) (files : List DumpFile)
    (hne : files ≠ []) (hreg : registryOf files = []) :
    analyze_dumps d files r =
      ["Temp directory: " ++ d, "Found " ++ toString files.length ++ " metadata files",
       "Found " ++ toString r ++ " raw pixel files", "",
       "=== Frame Sequence Analysis ==="] ++ parseLinesOf files ++
      ["", "=== Frame Sequence Check ==="] := by
  cases files with
  | nil => exact absurd rfl hne
  | cons a l =>
    rw [analyze_dumps, if_neg (by simp), hreg]
    simp [sequenceCheckLines]

/-- Witness for C7's amended claim at a single keyless metadata file. -/
theorem empty_registry_silent_skip_witness :
    analyze_dumps "T" [⟨"gifbolt_frame_0000.txt", .ok "DisplayingAlt: false\n"⟩] 0 =
      ["Temp directory: T",
       "Found " ++ toString ([⟨"gifbolt_frame_0000.txt", .ok "DisplayingAlt: false\n"⟩] :
         List DumpFile).length ++ " metadata files",
       "Found " ++ toString (0 : Nat) ++ " raw pixel files", "",
       "=== Frame Sequence Analysis ==="] ++
      parseLinesOf [⟨"gifbolt_frame_0000.txt", .ok "DisplayingAlt: false\n"⟩] ++
      ["", "=== Frame Sequence Check ==="] :=
  empty_registry_silent_skip "T" 0 [⟨"gifbolt_frame_0000.txt", .ok "DisplayingAlt: false\n"⟩]
    (List.cons_ne_nil _ _) rfl

/-! ## C10: invalid Frame lines reject the whole file -/

lemma foldlM_parseLine_error : ∀ (lines : List (List Char)) (st : Option Int × Option Bool),
    (∃ l ∈ lines, ∃ e, lineStep l = .error e) →
    ∃ e, lines.foldlM parseLine st = .error e
  | [], _, h => by simp at h
  | a :: ls, st, h => by
    cases ha : lineStep a with
    | error e0 =>
      refine ⟨e0, ?_⟩
      rw [List.foldlM_cons, show parseLine st a = Except.error e0 by rw [parseLine, ha]; rfl]
      rfl
    | ok eff =>
      have hm : ∃ l ∈ ls, ∃ e, lineStep l = .error e := by
        rcases h with ⟨l, hl, e, he⟩
        rcases List.mem_cons.mp hl with rfl | h2
        · rw [ha] at he; cases he
        · exact ⟨l, h2, e, he⟩
      obtain ⟨e1, he1⟩ := foldlM_parseLine_error ls (applyEffect st eff) hm
      refine ⟨e1, ?_⟩
      rw [List.foldlM_cons,
        show parseLine st a = Except.ok (applyEffect st eff) by rw [parseLine, ha]; rfl]
      exact he1

/-- C10: a metadata file containing any `Frame:` line whose parse raises —
the value is not a valid integer, or the `': '` separator is missing — is
rejected as a whole: the registry is left unchanged (even if another
`Frame:` line in the file carried a valid integer) and an error line naming
the file is printed. -/
theorem bad_frame_line_rejects_file (acc : FrameMap × List String) (f : DumpFile)
    (content : String)
    (hc : f.content = .ok content)
    (hbad : ∃ l ∈ splitLines content.toList,
      ("Frame:".toList <+: l) ∧ ∃ e, lineStep l = .error e) :
    parseFailed content = true ∧
    processFile acc f =
      (acc.1, acc.2 ++ ["Error parsing " ++ f.name ++ ": " ++ errText content]) := by
  have h' : ∃ l ∈ splitLines content.toList, ∃ e, lineStep l = .error e := by
    rcases hbad with ⟨l, hl, _, he⟩
    exact ⟨l, hl, he⟩
  obtain ⟨e, he⟩ := foldlM_parseLine_error (splitLines content.toList) (none, none) h'
  have hpc : parseContent content = .error e := he
  have het : errText content = e.message := by rw [errText, hpc]
  constructor
  · rw [parseFailed, hpc]
  · rw [het]
    simp [processFile, hc, hpc]

/-- Witness for C10: a file whose first `Frame:` line carries the valid
integer 3 and whose second `Frame:` line is invalid. -/
theorem bad_frame_line_rejects_file_witness :
    parseFailed "Frame: 3\nFrame: x\n" = true ∧
    processFile ([], []) ⟨"gifbolt_frame_0003.txt", .ok "Frame: 3\nFrame: x\n"⟩ =
      ([], ["Error parsing " ++ "gifbolt_frame_0003.txt" ++ ": " ++
        errText "Frame: 3\nFrame: x\n"]) :=
  bad_frame_line_rejects_file ([], []) ⟨"gifbolt_frame_0003.txt", .ok "Frame: 3\nFrame: x\n"⟩
    "Frame: 3\nFrame: x\n" rfl
    ⟨"Frame: x".toList, by decide, ⟨[' ', 'x'], by decide⟩, ⟨.valueError, rfl⟩⟩

/-! ## C8: zero metadata files -/

/-- C8: when discovery yields zero metadata files the tool prints the header
plus the no-dumps notice and returns normally, with no gap or alternation
section. -/
theorem no_dumps_notice (d : String) (r : Nat) :
    analyze_dumps d [] r =
      ["Temp directory: " ++ d, "Found 0 metadata files",
       "Found " ++ toString r ++ " raw pixel files", "",
       "No frame dumps found. Make sure the app ran with the new DLL."] ∧
    "No frame dumps found. Make sure the app ran with the new DLL." ∈ analyze_dumps d [] r := by
  have h : analyze_dumps d [] r =
      ["Temp directory: " ++ d, "Found 0 metadata files",
       "Found " ++ toString r ++ " raw pixel files", "",
       "No frame dumps found. Make sure the app ran with the new DLL."] := rfl
  exact ⟨h, h ▸ by simp⟩

/-! ## C9: determinism -/

/-- C9: the report is a deterministic function of the configured directory
path, the discovered metadata files (names and contents), and the raw-file
count; there is no other input. -/
theorem analyzer_deterministic (d₁ d₂ : String) (f₁ f₂ : List DumpFile) (r₁ r₂ : Nat)
    (hd : d₁ = d₂) (hf : f₁ = f₂) (hr : r₁ = r₂) :
    analyze_dumps d₁ f₁ r₁ = analyze_dumps d₂ f₂ r₂ := by
  rw [hd, hf, hr]

/-- Witness for C9 at a concrete directory and file list. -/
theorem analyzer_deterministic_witness :
    analyze_dumps "T" [⟨"gifbolt_frame_0008.txt", .ok "Frame: 8\n"⟩] 1 =
      analyze_dumps "T" [⟨"gifbolt_frame_0008.txt", .ok "Frame: 8\n"⟩] 1 :=
  analyzer_deterministic "T" "T" _ _ 1 1 rfl rfl rfl

end GifBolt
